import Mathlib

/-!
# Verification of sentry.tasks.check_alerts

A shallow embedding of `src/sentry/tasks/check_alerts.py`: the per-minute
scheduler `check_alerts`, the per-project evaluator `check_project_alerts`
and the statistics helper `meanstdv`, together with theorems settling the
specification claims about them.

Modelling conventions:
- datetimes are integers counting seconds; `timedelta.seconds` (the
  seconds component of a Python timedelta) is `(· % 86400)` on the total
  seconds, which matches Python's normalisation for any sign;
- Python floats are modelled as exact real numbers (`ℝ`), and the float
  values that stay rational along every code path of interest as `ℚ`;
- Python's `int(...)` conversion truncates toward zero: `pytrunc`;
- the database tables are lists of rows; a Django `filter(...)` is a
  `List.filter`;
- `check_project_alerts` either returns without alerting, alerts, or
  raises `ZeroDivisionError` (the only arithmetic fault reachable in the
  function body); the outcome is an inductive `AlertOutcome`.
-/

/-- Modelled from the spec: `sentry.constants.MINUTE_NORMALIZATION` is not in
the sources; the module docstring describes 15-minute history windows
("the last N minutes (15m for redis counters ...)"), so the normalization
window `W` is 15 minutes. -/
def MINUTE_NORMALIZATION : ℤ := 15

/-- Python `int(q)` on a float/rational: truncation toward zero. -/
def pytrunc (q : ℚ) : ℤ := if q < 0 then ⌈q⌉ else ⌊q⌋

/-- A row of the `ProjectCountByMinute` table: per-project, per-minute
event counts (`date` is the bucket's start time in seconds). -/
structure Bucket where
  project_id : ℕ
  date : ℤ
  times_seen : ℤ
  deriving DecidableEq, Repr

/-- The task submitted by `maybe_delay(check_project_alerts, ...)`:
keyword arguments `project_id`, `when`, `count` and the task `expires`. -/
structure EvalRequest where
  project_id : ℕ
  when : ℤ
  count : ℤ
  expires : ℕ
  deriving DecidableEq, Repr

/-- The seconds component of a Python `timedelta` built from `total`
seconds: Python normalises so that `seconds ∈ [0, 86400)`. -/
def timedelta_seconds (total : ℤ) : ℤ := total % 86400

/-- The normalised per-minute count computed by `check_alerts`:
`int(count / (((when - date).seconds + 1) / 60))` with true division,
where `s` is the seconds component of `when - date`. -/
def normalized_count (count : ℤ) (s : ℤ) : ℤ :=
  pytrunc ((count : ℚ) / ((s + 1) / 60))

/-- The scheduler task `check_alerts`: selects every bucket with
`date > when - MINUTE_NORMALIZATION minutes` and `count > 0`, and submits
one `check_project_alerts` task per selected row, with the normalised
count and a 120-second expiry. -/
def check_alerts (store : List Bucket) (when : ℤ) : List EvalRequest :=
  (store.filter fun b =>
      decide (when - 60 * MINUTE_NORMALIZATION < b.date ∧ 0 < b.times_seen)).map
    fun b =>
      { project_id := b.project_id
        when := when
        count := normalized_count b.times_seen (timedelta_seconds (when - b.date))
        expires := 120 }

/-- `meanstdv` from the source: accumulates the sum, divides by `n`,
accumulates the squared deviations, and takes
`sqrt(std / float(n - 1))`. -/
noncomputable def meanstdv (x : List ℝ) : ℝ × ℝ :=
  ((x.foldl (fun mean a => mean + a) 0) / (x.length : ℝ),
   Real.sqrt
     ((x.foldl (fun std a => std + (a - (x.foldl (fun mean a => mean + a) 0) / (x.length : ℝ)) ^ 2) 0)
       / ((x.length : ℝ) - 1)))

/-- The per-project `(threshold, min_events)` pair: the `ProjectOption`
row when present, else `settings.DEFAULT_ALERT_PROJECT_THRESHOLD`. -/
def effective (opt : Option (ℝ × ℝ)) (dflt : ℝ × ℝ) : ℝ × ℝ := opt.getD dflt

/-- The historical query of `check_project_alerts`: rows of the project
with `max_date ≤ date < min_date`, where `min_date = when - W` and
`max_date = min_date - 8 * W` (`intervals = 8`); no filter on the count. -/
def history (store : List Bucket) (project_id : ℕ) (when : ℤ) : List ℤ :=
  (store.filter fun b =>
      decide (b.project_id = project_id ∧
        b.date < when - 60 * MINUTE_NORMALIZATION ∧
        when - 60 * MINUTE_NORMALIZATION - 60 * (8 * MINUTE_NORMALIZATION) ≤ b.date)).map
    Bucket.times_seen

/-- `previous = (mean + stddev * 2) / MINUTE_NORMALIZATION` computed from
the historical data. -/
noncomputable def previousRate (data : List ℤ) : ℝ :=
  ((meanstdv (data.map fun a => (a : ℝ))).1 +
      (meanstdv (data.map fun a => (a : ℝ))).2 * 2) / (MINUTE_NORMALIZATION : ℝ)

/-- Outcome of one `check_project_alerts` run: a silent return, a call to
`Alert.maybe_alert` (carrying the `previous` rate and the count that the
message is formatted from), or an uncaught `ZeroDivisionError`. -/
inductive AlertOutcome where
  | noAlert : AlertOutcome
  | alerted : ℝ → ℤ → AlertOutcome
  | zeroDivisionError : AlertOutcome

/-- `true` exactly on the `alerted` outcome. -/
def AlertOutcome.isAlert : AlertOutcome → Bool
  | .alerted _ _ => true
  | _ => false

open Classical in
/-- The evaluator task `check_project_alerts`, line by line:
`if not threshold and min_events: return`, `if min_events > count: return`,
the historical query, `if len(data) != intervals: return`, then
`previous = (mean + stddev * 2) / MINUTE_NORMALIZATION` and
`if count / previous * 100 > threshold: Alert.maybe_alert(...)`; with
`previous == 0` the division raises `ZeroDivisionError`. -/
noncomputable def check_project_alerts (store : List Bucket)
    (opt : Option (ℝ × ℝ)) (dflt : ℝ × ℝ)
    (project_id : ℕ) (when : ℤ) (count : ℤ) : AlertOutcome :=
  if (effective opt dflt).1 = 0 ∧ (effective opt dflt).2 ≠ 0 then .noAlert
  else if (count : ℝ) < (effective opt dflt).2 then .noAlert
  else if (history store project_id when).length ≠ 8 then .noAlert
  else if previousRate (history store project_id when) = 0 then .zeroDivisionError
  else if (count : ℝ) / previousRate (history store project_id when) * 100 >
      (effective opt dflt).1 then
    .alerted (previousRate (history store project_id when)) count
  else .noAlert

/-- Modelled from the spec: the Rate Normalizer formula of §4.2,
`normalized_rate = raw_count / ceil(elapsed_seconds / 60)`, int-truncated,
with `elapsed_seconds` treated as at least 1. -/
def spec_normalized (count : ℤ) (s : ℤ) : ℤ :=
  pytrunc ((count : ℚ) / (⌈(max s 1 : ℚ) / 60⌉ : ℤ))

/-! ## Concrete store states used as witnesses and failing inputs -/

/-- Eight historical buckets of project 1, all with 15 events, filling the
lookback window of an evaluation at time 10000. -/
def store8_const : List Bucket :=
  [⟨1, 2000, 15⟩, ⟨1, 2900, 15⟩, ⟨1, 3800, 15⟩, ⟨1, 4700, 15⟩,
   ⟨1, 5600, 15⟩, ⟨1, 6500, 15⟩, ⟨1, 7400, 15⟩, ⟨1, 8300, 15⟩]

/-- Eight historical buckets of project 1, all with zero events, filling
the lookback window of an evaluation at time 10000. -/
def store8_zero : List Bucket :=
  [⟨1, 2000, 0⟩, ⟨1, 2900, 0⟩, ⟨1, 3800, 0⟩, ⟨1, 4700, 0⟩,
   ⟨1, 5600, 0⟩, ⟨1, 6500, 0⟩, ⟨1, 7400, 0⟩, ⟨1, 8300, 0⟩]

lemma history_store8_const : history store8_const 1 10000 =
    [15, 15, 15, 15, 15, 15, 15, 15] := by decide

lemma history_store8_zero : history store8_zero 1 10000 =
    [0, 0, 0, 0, 0, 0, 0, 0] := by decide

lemma meanstdv_store8_const :
    meanstdv ((history store8_const 1 10000).map fun a => (a : ℝ)) = (15, 0) := by
  rw [history_store8_const]
  simp [meanstdv, List.foldl]
  norm_num

lemma meanstdv_store8_zero :
    meanstdv ((history store8_zero 1 10000).map fun a => (a : ℝ)) = (0, 0) := by
  rw [history_store8_zero]
  simp [meanstdv, List.foldl]

lemma previous_store8_const : previousRate (history store8_const 1 10000) = 1 := by
  rw [previousRate, meanstdv_store8_const]
  norm_num [MINUTE_NORMALIZATION]

lemma previous_store8_zero : previousRate (history store8_zero 1 10000) = 0 := by
  rw [previousRate, meanstdv_store8_zero]
  norm_num

/-! ## General lemmas about the normalizer and the statistics helper -/

lemma normalized_count_eq_floor (c s : ℤ) (hc : 0 ≤ c) (hs : 0 ≤ s) :
    normalized_count c s = ⌊((c : ℚ) * 60) / ((s : ℚ) + 1)⌋ := by
  have hs1 : (0 : ℚ) < (s : ℚ) + 1 := by
    have hsq : (0 : ℚ) ≤ (s : ℚ) := by exact_mod_cast hs
    linarith
  have hnn : (0 : ℚ) ≤ (c : ℚ) / (((s : ℚ) + 1) / 60) := by
    apply div_nonneg
    · exact_mod_cast hc
    · positivity
  rw [normalized_count, pytrunc, if_neg (not_lt.mpr hnn), div_div_eq_mul_div]

lemma foldl_add_eq_sum (l : List ℝ) : l.foldl (fun mean a => mean + a) 0 = l.sum := by
  rw [List.sum_eq_foldl]

lemma foldl_sq_eq_sum (l : List ℝ) (m : ℝ) :
    l.foldl (fun std a => std + (a - m) ^ 2) 0 = (l.map fun a => (a - m) ^ 2).sum := by
  rw [List.sum_eq_foldl, List.foldl_map]

/-! ## Claim theorems -/

/-- C1: the claim says a zero/unset `threshold_pct` always suppresses the
alert. The code's guard is `if not threshold and min_events: return`,
which parses as `(not threshold) and min_events`: with `threshold = 0` and
`min_events = 0` the guard does not fire, and with a valid baseline the
function goes on to alert (`ratio 100 > threshold 0`). Evaluated at the
failing input: eight historical buckets of 15 events, `threshold = 0`,
`min_events = 0`, current normalized count 1. -/
theorem check_project_alerts_zero_threshold_alerts :
    check_project_alerts store8_const (some (0, 0)) (500, 25) 1 10000 1 =
      .alerted 1 1 := by
  rw [check_project_alerts, if_neg (by norm_num [effective]),
    if_neg (by norm_num [effective]),
    if_neg (by rw [history_store8_const]; norm_num),
    if_neg (by rw [previous_store8_const]; norm_num),
    if_pos (by rw [previous_store8_const]; norm_num [effective]),
    previous_store8_const]

/-- C2: the claim says the anomaly-ratio computation is explicitly guarded
against `expected_rate == 0`. It is not: with threshold 100, min_events 0,
count 5 and eight historical buckets of zero events, the baseline
`previous = (mean + 2 * stddev) / MINUTE_NORMALIZATION` is zero and
`count / previous * 100` raises an uncaught `ZeroDivisionError`. -/
theorem check_project_alerts_zero_baseline_faults :
    check_project_alerts store8_zero (some (100, 0)) (500, 25) 1 10000 5 =
      .zeroDivisionError := by
  rw [check_project_alerts, if_neg (by norm_num [effective]),
    if_neg (by norm_num [effective]),
    if_neg (by rw [history_store8_zero]; norm_num),
    if_pos previous_store8_zero]

/-- C10: the historical query has no count-greater-than-zero filter, so
eight zero-count buckets inside the lookback window are eight valid data
points: the baseline evaluates to mean 0 and stddev 0, `expected_rate` is
0, and the evaluation still proceeds past the history-length check into
the ratio computation (where it hits the unguarded division) instead of
being skipped as insufficient history. -/
theorem history_no_count_filter_zero_baseline :
    history store8_zero 1 10000 = [0, 0, 0, 0, 0, 0, 0, 0] ∧
    meanstdv ((history store8_zero 1 10000).map fun a => (a : ℝ)) = (0, 0) ∧
    previousRate (history store8_zero 1 10000) = 0 ∧
    check_project_alerts store8_zero (some (200, 0)) (500, 25) 1 10000 7 =
      .zeroDivisionError := by
  refine ⟨history_store8_zero, meanstdv_store8_zero, previous_store8_zero, ?_⟩
  rw [check_project_alerts, if_neg (by norm_num [effective]),
    if_neg (by norm_num [effective]),
    if_neg (by rw [history_store8_zero]; norm_num),
    if_pos previous_store8_zero]

/-- C4: whenever the historical query returns a number of data points
different from the fixed `intervals = 8`, `check_project_alerts` returns
without issuing an alert (each earlier guard also returns silently). -/
theorem check_project_alerts_wrong_history_no_alert
    (store : List Bucket) (opt : Option (ℝ × ℝ)) (dflt : ℝ × ℝ)
    (project_id : ℕ) (when count : ℤ)
    (h : (history store project_id when).length ≠ 8) :
    check_project_alerts store opt dflt project_id when count = .noAlert := by
  rw [check_project_alerts]
  split_ifs with h1 h2 <;> rfl

/-- Witness for C4: an empty store yields zero historical data points and
a silent return. -/
theorem check_project_alerts_wrong_history_no_alert_witness :
    (history [] 1 0).length ≠ 8 ∧
    check_project_alerts [] none (500, 25) 1 0 0 = .noAlert :=
  ⟨by decide,
   check_project_alerts_wrong_history_no_alert [] none (500, 25) 1 0 0 (by decide)⟩

/-- C8: a normalized count strictly below the effective `min_events` floor
makes `check_project_alerts` return without alerting
(`if min_events > count: return`); a count exactly equal to the floor is
not skipped by this check — with count 5 equal to the floor 5 the
evaluation proceeds all the way to an alert. -/
theorem check_project_alerts_min_events_floor :
    (∀ (store : List Bucket) (opt : Option (ℝ × ℝ)) (dflt : ℝ × ℝ)
        (project_id : ℕ) (when count : ℤ),
      (count : ℝ) < (effective opt dflt).2 →
        check_project_alerts store opt dflt project_id when count = .noAlert) ∧
    check_project_alerts store8_const (some (50, 5)) (500, 25) 1 10000 5 =
      .alerted 1 5 := by
  constructor
  · intro store opt dflt project_id when count hc
    rw [check_project_alerts]
    split_ifs with h1 <;> rfl
  · rw [check_project_alerts, if_neg (by norm_num [effective]),
      if_neg (by norm_num [effective]),
      if_neg (by rw [history_store8_const]; norm_num),
      if_neg (by rw [previous_store8_const]; norm_num),
      if_pos (by rw [previous_store8_const]; norm_num [effective]),
      previous_store8_const]

/-- Witness for C8: a count of 4 under a floor of 5 is skipped. -/
theorem check_project_alerts_min_events_floor_witness :
    ((4 : ℤ) : ℝ) < (effective (some (50, 5)) (500, 25)).2 ∧
    check_project_alerts [] (some (50, 5)) (500, 25) 1 0 4 = .noAlert :=
  ⟨by norm_num [effective],
   check_project_alerts_min_events_floor.1 [] (some (50, 5)) (500, 25) 1 0 4
     (by norm_num [effective])⟩

/-- C5: once the three guards pass (nonzero threshold, count at least the
floor, exactly 8 data points) and the baseline is nonzero so that the
ratio is defined, an alert is issued if and only if
`count / previous * 100` is strictly greater than the threshold; in
particular a ratio exactly equal to the threshold does not alert. -/
theorem check_project_alerts_ratio_iff
    (store : List Bucket) (opt : Option (ℝ × ℝ)) (dflt : ℝ × ℝ)
    (project_id : ℕ) (when count : ℤ)
    (hthr : (effective opt dflt).1 ≠ 0)
    (hmin : (effective opt dflt).2 ≤ (count : ℝ))
    (hlen : (history store project_id when).length = 8)
    (hprev : previousRate (history store project_id when) ≠ 0) :
    (check_project_alerts store opt dflt project_id when count).isAlert = true ↔
      (count : ℝ) / previousRate (history store project_id when) * 100 >
        (effective opt dflt).1 := by
  rw [check_project_alerts, if_neg (fun hc => hthr hc.1),
    if_neg (not_lt.mpr hmin), if_neg (by simp [hlen]), if_neg hprev]
  by_cases hr : (count : ℝ) / previousRate (history store project_id when) * 100 >
      (effective opt dflt).1
  · rw [if_pos hr]
    simp [AlertOutcome.isAlert, hr]
  · rw [if_neg hr]
    simp [AlertOutcome.isAlert, hr]

/-- Witness for C5: with threshold 50, floor 5, count 5 and a constant-15
history, the baseline rate is 1 and the ratio 500 exceeds 50. -/
theorem check_project_alerts_ratio_iff_witness :
    previousRate (history store8_const 1 10000) ≠ 0 ∧
    ((check_project_alerts store8_const (some (50, 5)) (500, 25) 1 10000 5).isAlert
        = true ↔
      ((5 : ℤ) : ℝ) / previousRate (history store8_const 1 10000) * 100 > 50) := by
  have hprev : previousRate (history store8_const 1 10000) ≠ 0 := by
    rw [previous_store8_const]; norm_num
  refine ⟨hprev, ?_⟩
  have h := check_project_alerts_ratio_iff store8_const (some (50, 5)) (500, 25)
    1 10000 5 (by norm_num [effective]) (by norm_num [effective])
    (by decide) hprev
  simpa [effective] using h

/-- C6: for any list of at least two reals, `meanstdv` returns the
textbook sample mean and the sample standard deviation with Bessel's
correction. -/
theorem meanstdv_textbook (x : List ℝ) (h : 2 ≤ x.length) :
    meanstdv x = (x.sum / (x.length : ℝ),
      Real.sqrt ((x.map fun a => (a - x.sum / (x.length : ℝ)) ^ 2).sum /
        ((x.length : ℝ) - 1))) := by
  rw [meanstdv, foldl_add_eq_sum, foldl_sq_eq_sum]

/-- Witness for C6: `meanstdv [1, 3]` is the mean 2 and the sample
standard deviation `sqrt 2`. -/
theorem meanstdv_textbook_witness :
    2 ≤ ([1, 3] : List ℝ).length ∧ meanstdv [1, 3] = (2, Real.sqrt 2) := by
  refine ⟨by norm_num, ?_⟩
  rw [meanstdv_textbook [1, 3] (by norm_num)]
  norm_num

/-- C7: for a fixed nonnegative raw count, the normalized per-minute
count computed by `check_alerts` is non-increasing in the elapsed
seconds. -/
theorem normalized_count_antitone (c s t : ℤ) (hc : 0 ≤ c) (hs : 0 ≤ s)
    (hst : s ≤ t) : normalized_count c t ≤ normalized_count c s := by
  have ht : (0 : ℤ) ≤ t := hs.trans hst
  rw [normalized_count_eq_floor c s hc hs, normalized_count_eq_floor c t hc ht]
  have hsq : (0 : ℚ) ≤ (s : ℚ) := by exact_mod_cast hs
  have hstq : (s : ℚ) ≤ (t : ℚ) := by exact_mod_cast hst
  have hcq : (0 : ℚ) ≤ (c : ℚ) := by exact_mod_cast hc
  apply Int.floor_mono
  gcongr

/-- Witness for C7: 40 events after 100 seconds normalize to no more than
40 events after 30 seconds. -/
theorem normalized_count_antitone_witness :
    (0 : ℤ) ≤ 40 ∧ (0 : ℤ) ≤ 30 ∧ (30 : ℤ) ≤ 100 ∧
    normalized_count 40 100 ≤ normalized_count 40 30 :=
  ⟨by decide, by decide, by decide,
   normalized_count_antitone 40 30 100 (by decide) (by decide) (by decide)⟩

/-- One bucket of 40 events opened 30 seconds before the tick at 1000:
the scheduler submits a single task with normalized count
`int(40 / (31 / 60)) = 77`. -/
lemma check_alerts_single :
    check_alerts [⟨1, 970, 40⟩] 1000 = [⟨1, 1000, 77, 120⟩] := by
  simp [check_alerts, normalized_count, timedelta_seconds, pytrunc,
    MINUTE_NORMALIZATION]
  norm_num

/-- C3 counterexample: the claim's formula
`raw_count / ceil(elapsed_seconds / 60)` (int-truncated, elapsed at
least 1) gives 40 for 40 events over 30 elapsed seconds, but the code
submits `int(40 / ((30 + 1) / 60)) = 77`: the code extrapolates by
`(elapsed + 1) / 60` minutes, not by `ceil(elapsed / 60)`. -/
theorem check_alerts_normalization_ne_spec :
    check_alerts [⟨1, 970, 40⟩] 1000 = [⟨1, 1000, 77, 120⟩] ∧
    spec_normalized 40 (timedelta_seconds (1000 - 970)) = 40 ∧
    (77 : ℤ) ≠ 40 := by
  refine ⟨check_alerts_single, ?_, by decide⟩
  norm_num [spec_normalized, timedelta_seconds, pytrunc]
  rw [show ⌈(1 : ℚ) / 2⌉ = (1 : ℤ) from by rw [Int.ceil_eq_iff] <;> norm_num]
  norm_num

/-- C3 amended: every task submitted by `check_alerts` carries the count
`raw_count * 60 / (elapsed_seconds + 1)` rounded down, i.e. the raw count
divided by `(elapsed_seconds + 1) / 60` minutes, where `elapsed_seconds`
is the seconds component of `when - date`. -/
theorem check_alerts_normalized_count_floor (store : List Bucket) (when : ℤ) :
    ∀ r ∈ check_alerts store when, ∃ b ∈ store,
      0 < b.times_seen ∧
      r.count = ⌊((b.times_seen : ℚ) * 60) /
        ((timedelta_seconds (when - b.date) : ℚ) + 1)⌋ := by
  intro r hr
  rw [check_alerts] at hr
  obtain ⟨b, hbf, rfl⟩ := List.mem_map.1 hr
  obtain ⟨hbs, hcond⟩ := List.mem_filter.1 hbf
  rw [decide_eq_true_eq] at hcond
  refine ⟨b, hbs, hcond.2, ?_⟩
  exact normalized_count_eq_floor _ _ (le_of_lt hcond.2)
    (Int.emod_nonneg _ (by norm_num))

/-- Witness for the amended C3: the single task of `check_alerts_single`
carries `77 = ⌊40 * 60 / 31⌋`. -/
theorem check_alerts_normalized_count_floor_witness :
    (⟨1, 1000, 77, 120⟩ : EvalRequest) ∈ check_alerts [⟨1, 970, 40⟩] 1000 ∧
    ∃ b ∈ ([⟨1, 970, 40⟩] : List Bucket), 0 < b.times_seen ∧
      (⟨1, 1000, 77, 120⟩ : EvalRequest).count = ⌊((b.times_seen : ℚ) * 60) /
        ((timedelta_seconds (1000 - b.date) : ℚ) + 1)⌋ := by
  have hm : (⟨1, 1000, 77, 120⟩ : EvalRequest) ∈ check_alerts [⟨1, 970, 40⟩] 1000 := by
    rw [check_alerts_single]
    exact List.mem_singleton.mpr rfl
  exact ⟨hm, check_alerts_normalized_count_floor [⟨1, 970, 40⟩] 1000 _ hm⟩

/-- C9: provided every stored bucket opened no later than the tick time
(buckets are created when their minute starts), each task submitted by a
`check_alerts` tick comes from a bucket with a strictly positive count
whose date lies within the last `MINUTE_NORMALIZATION` minutes before the
tick, carries a 120-second expiry and the bucket's normalized count; and
exactly one task is submitted per row matching the query. -/
theorem check_alerts_task_characterization (store : List Bucket) (when : ℤ)
    (hdates : ∀ b ∈ store, b.date ≤ when) :
    (check_alerts store when).length = (store.filter fun b =>
      decide (when - 60 * MINUTE_NORMALIZATION < b.date ∧ 0 < b.times_seen)).length ∧
    ∀ r ∈ check_alerts store when, r.expires = 120 ∧ ∃ b ∈ store,
      0 < b.times_seen ∧ when - 60 * MINUTE_NORMALIZATION < b.date ∧
      b.date ≤ when ∧
      r = { project_id := b.project_id, when := when,
            count := normalized_count b.times_seen (timedelta_seconds (when - b.date)),
            expires := 120 } := by
  constructor
  · rw [check_alerts, List.length_map]
  · intro r hr
    rw [check_alerts] at hr
    obtain ⟨b, hbf, rfl⟩ := List.mem_map.1 hr
    obtain ⟨hbs, hcond⟩ := List.mem_filter.1 hbf
    rw [decide_eq_true_eq] at hcond
    exact ⟨rfl, b, hbs, hcond.2, hcond.1, hdates b hbs, rfl⟩

/-- Witness for C9: a three-bucket store (one in-window active bucket,
one stale bucket, one zero-count bucket) at tick 1000. -/
theorem check_alerts_task_characterization_witness :
    (∀ b ∈ ([⟨1, 970, 40⟩, ⟨2, 50, 7⟩, ⟨3, 980, 0⟩] : List Bucket), b.date ≤ 1000) ∧
    ((check_alerts [⟨1, 970, 40⟩, ⟨2, 50, 7⟩, ⟨3, 980, 0⟩] 1000).length =
      (([⟨1, 970, 40⟩, ⟨2, 50, 7⟩, ⟨3, 980, 0⟩] : List Bucket).filter fun b =>
        decide (1000 - 60 * MINUTE_NORMALIZATION < b.date ∧ 0 < b.times_seen)).length ∧
    ∀ r ∈ check_alerts [⟨1, 970, 40⟩, ⟨2, 50, 7⟩, ⟨3, 980, 0⟩] 1000,
      r.expires = 120 ∧ ∃ b ∈ ([⟨1, 970, 40⟩, ⟨2, 50, 7⟩, ⟨3, 980, 0⟩] : List Bucket),
        0 < b.times_seen ∧ 1000 - 60 * MINUTE_NORMALIZATION < b.date ∧
        b.date ≤ 1000 ∧
        r = { project_id := b.project_id, when := 1000,
              count := normalized_count b.times_seen (timedelta_seconds (1000 - b.date)),
              expires := 120 }) :=
  ⟨by decide,
   check_alerts_task_characterization [⟨1, 970, 40⟩, ⟨2, 50, 7⟩, ⟨3, 980, 0⟩] 1000
     (by decide)⟩
